import Mathlib

/-!
Verification of the TravelMate booking routes
(src/backend/routes/bookingRoutes.js) against its specification.

The route module is shallowly embedded: each Express handler becomes a pure
Lean function from the request data and a system state (the persisted Trip,
Booking and User documents) to a response and a new state.  MongoDB object
ids are modelled as naturals, JS strings as Lean strings, JS numbers holding
money or rating averages as rationals, and seat counters as integers (JS
numbers go negative on over-rollback).  Timestamps are naturals counting
milliseconds since the epoch.

The Booking and Trip mongoose models are not part of the repository snapshot
(only the routes file is), so the three model methods the routes call
(Trip.hasAvailableSeats, Booking.generateOTP, Booking.calculateRefund) and
the schema defaults are modelled from the specification; their doc comments
say so.
-/

namespace TravelMate

/-- A pickup or drop point: location string and an HH:MM time string. -/
structure Point where
  location : String
  time : String
  deriving Repr, DecidableEq

/-- An entry of a Trip's passenger roster, as pushed at bookingRoutes.js:73-77. -/
structure PassengerEntry where
  user : Nat
  seatsBooked : Nat
  bookingDate : Nat
  deriving Repr, DecidableEq

/-- The Trip document fields the routes read and mutate (spec section 3). -/
structure Trip where
  pricePerSeat : ℚ
  bookedSeats : ℤ
  totalSeats : ℤ
  driver : Nat
  passengers : List PassengerEntry
  totalEarnings : ℚ
  status : String
  deriving Repr, DecidableEq

/-- The OTP sub-document of a booking: code, generation time, verified flag. -/
structure Otp where
  code : String
  generatedAt : Nat
  verified : Bool
  deriving Repr, DecidableEq

/-- One direction of a booking's rating (rating value plus optional review). -/
structure RatingEntry where
  rating : Nat
  review : Option String
  deriving Repr, DecidableEq

/-- The rating sub-document: forDriver set by the passenger, forPassenger by
the driver; an unset direction is none. -/
structure BookingRating where
  forDriver : Option RatingEntry
  forPassenger : Option RatingEntry
  deriving Repr, DecidableEq

/-- The Booking document (spec section 3). -/
structure Booking where
  trip : Nat
  passenger : Nat
  seatsBooked : Nat
  totalAmount : ℚ
  pickupPoint : Point
  dropPoint : Point
  paymentMethod : String
  paymentStatus : String
  bookingStatus : String
  transactionId : Option String
  otp : Otp
  passengerDetails : List String
  rating : BookingRating
  cancellationReason : Option String
  cancelledBy : Option Nat
  cancelledAt : Option Nat
  refundAmount : Option ℚ
  specialRequests : Option String
  deriving Repr, DecidableEq

/-- The rating counters stored on a User document (average, count). -/
structure UserRating where
  average : ℚ
  count : Nat
  deriving Repr, DecidableEq

/-- The User document fields the rating handler touches. -/
structure User where
  rating : UserRating
  deriving Repr, DecidableEq

/-- The persisted documents: trips, bookings and users keyed by object id. -/
structure SystemState where
  trips : List (Nat × Trip)
  bookings : List (Nat × Booking)
  users : List (Nat × User)
  deriving Repr, DecidableEq

/-- Lookup by id in an association list (Model.findById). -/
def lookupA {α : Type} (k : Nat) : List (Nat × α) → Option α
  | [] => none
  | (k', v) :: l => if k' = k then some v else lookupA k l

/-- Overwrite the value stored at an id (document.save on an existing doc). -/
def updateA {α : Type} (k : Nat) (v : α) : List (Nat × α) → List (Nat × α)
  | [] => []
  | (k', v') :: l => if k' = k then (k', v) :: updateA k v l else (k', v') :: updateA k v l

def lookupTrip (s : SystemState) (id : Nat) : Option Trip := lookupA id s.trips

def lookupBooking (s : SystemState) (id : Nat) : Option Booking := lookupA id s.bookings

def lookupUser (s : SystemState) (id : Nat) : Option User := lookupA id s.users

def saveTrip (s : SystemState) (id : Nat) (t : Trip) : SystemState :=
  { s with trips := updateA id t s.trips }

def saveBooking (s : SystemState) (id : Nat) (b : Booking) : SystemState :=
  { s with bookings := updateA id b s.bookings }

def saveUser (s : SystemState) (id : Nat) (u : User) : SystemState :=
  { s with users := updateA id u s.users }

/-- HTTP response shape shared by the handlers; the mutated documents live in
the returned state, so responses only carry the status class and message. -/
inductive Resp where
  | ok (msg : String)
  | badRequest (msg : String)
  | forbidden (msg : String)
  | notFound (msg : String)
  | serverError
  deriving Repr, DecidableEq

/-- Modelled from the spec: Trip.hasAvailableSeats is not in the snapshot
(the Trip model file is missing); spec section 4.1 defines the check as
totalSeats - bookedSeats being at least the requested seat count. -/
def Trip.hasAvailableSeats (t : Trip) (n : Nat) : Bool :=
  (n : ℤ) ≤ t.totalSeats - t.bookedSeats

/-- Modelled from the spec: Booking.generateOTP is not in the snapshot (the
Booking model file is missing); spec sections 3 and 4.1 say it produces a
4-digit code string.  The random draw is a seed parameter of the handler;
the code is the decimal rendering of a number in 1000..9999. -/
def generateOTPCode (seed : Nat) : String :=
  let v := 1000 + seed % 9000
  String.mk [Nat.digitChar (v / 1000 % 10), Nat.digitChar (v / 100 % 10),
    Nat.digitChar (v / 10 % 10), Nat.digitChar (v % 10)]

/-- The body of POST / (bookingRoutes.js:9-98) after express-validator. -/
structure CreateReq where
  tripId : Nat
  seatsBooked : Nat
  pickupPoint : Point
  dropPoint : Point
  paymentMethod : String
  passengerDetails : List String
  specialRequests : Option String
  deriving Repr, DecidableEq

/-- Matches the validator regex for HH:MM times at bookingRoutes.js:13,15:
hour 0-23 with optional leading zero, minute 00-59.  51 and 53 are the
character codes of the digits 3 and 5. -/
def validTime (s : String) : Bool :=
  match s.toList with
  | [h1, h2, c, m1, m2] =>
      c == ':' &&
      (((h1 == '0' || h1 == '1') && h2.isDigit) ||
        (h1 == '2' && h2.isDigit && h2.toNat ≤ 51)) &&
      m1.isDigit && m1.toNat ≤ 53 && m2.isDigit
  | [h, c, m1, m2] =>
      h.isDigit && c == ':' && m1.isDigit && m1.toNat ≤ 53 && m2.isDigit
  | _ => false

/-- The express-validator rules on POST / (bookingRoutes.js:10-17): seats in
1..7, nonempty locations, HH:MM times, known payment method, at least one
passenger detail. -/
def validCreateReq (r : CreateReq) : Bool :=
  decide (1 ≤ r.seatsBooked) && decide (r.seatsBooked ≤ 7) &&
  decide (1 ≤ r.pickupPoint.location.length) && validTime r.pickupPoint.time &&
  decide (1 ≤ r.dropPoint.location.length) && validTime r.dropPoint.time &&
  (r.paymentMethod == "cash" || r.paymentMethod == "online" ||
    r.paymentMethod == "upi" || r.paymentMethod == "card") &&
  decide (1 ≤ r.passengerDetails.length)

/-- Response of POST /: on success the created booking and the plaintext OTP
are part of the 201 body (bookingRoutes.js:90-94). -/
inductive CreateResp where
  | created (bookingId : Nat) (b : Booking) (otp : String)
  | badRequest (msg : String)
  | notFound (msg : String)
  deriving Repr, DecidableEq

/-- The freshly persisted booking of bookingRoutes.js:57-67 with the OTP
already generated (bookingRoutes.js:83); paymentStatus and bookingStatus
start at pending per the spec's lifecycle in section 3 (the schema defaults
are in the missing Booking model file). -/
def Booking.fresh (uid : Nat) (r : CreateReq) (now : Nat) (code : String)
    (totalAmount : ℚ) : Booking :=
  { trip := r.tripId
    passenger := uid
    seatsBooked := r.seatsBooked
    totalAmount := totalAmount
    pickupPoint := r.pickupPoint
    dropPoint := r.dropPoint
    paymentMethod := r.paymentMethod
    paymentStatus := "pending"
    bookingStatus := "pending"
    transactionId := none
    otp := { code := code, generatedAt := now, verified := false }
    passengerDetails := r.passengerDetails
    rating := { forDriver := none, forPassenger := none }
    cancellationReason := none
    cancelledBy := none
    cancelledAt := none
    refundAmount := none
    specialRequests := r.specialRequests }

/-- The trip after the creation-side counter bumps and roster push
(bookingRoutes.js:72-78). -/
def Trip.afterBooking (t : Trip) (uid : Nat) (r : CreateReq) (now : Nat)
    (totalAmount : ℚ) : Trip :=
  { t with
    bookedSeats := t.bookedSeats + (r.seatsBooked : ℤ)
    passengers := t.passengers ++
      [{ user := uid, seatsBooked := r.seatsBooked, bookingDate := now }]
    totalEarnings := t.totalEarnings + totalAmount }

/-- POST / (bookingRoutes.js:19-97), after the validationResult gate: find
the trip, run the precondition chain, then persist the booking, bump the
trip counters and roster, generate the OTP and answer 201 with booking and
OTP.  uid is the authenticated user, now the clock, newId the fresh booking
object id, otpSeed the random draw. -/
def createBooking (uid : Nat) (r : CreateReq) (now : Nat) (newId : Nat)
    (otpSeed : Nat) (s : SystemState) : CreateResp × SystemState :=
  match lookupTrip s r.tripId with
  | none => (.notFound "Trip not found", s)
  | some trip =>
    if trip.status ≠ "active" then
      (.badRequest "Trip is not available for booking", s)
    else if trip.driver = uid then
      (.badRequest "You cannot book your own trip", s)
    else if ¬ trip.hasAvailableSeats r.seatsBooked then
      (.badRequest "Not enough seats available", s)
    else if r.passengerDetails.length ≠ r.seatsBooked then
      (.badRequest "Passenger details count must match seats booked", s)
    else
      let totalAmount := trip.pricePerSeat * (r.seatsBooked : ℚ)
      let code := generateOTPCode otpSeed
      let booking := Booking.fresh uid r now code totalAmount
      let s' := { saveTrip s r.tripId (trip.afterBooking uid r now totalAmount) with
                  bookings := (newId, booking) :: s.bookings }
      (.created newId booking code, s')

/-- JS truthiness of the optional transactionId at bookingRoutes.js:148:
undefined and the empty string are falsy, any other string truthy. -/
def truthyStr : Option String → Bool
  | none => false
  | some t => t ≠ ""

/-- PATCH /:id/payment (bookingRoutes.js:124-170) after the validator (which
restricts paymentStatus to paid or failed): set paymentStatus; a truthy
transaction id with paid confirms the booking and stores the id; failed
cancels the booking and, when the trip still exists, rolls the trip's seat
and earnings counters back and drops the caller's roster entries. -/
def updatePayment (uid bid : Nat) (paymentStatus : String)
    (transactionId : Option String) (s : SystemState) : Resp × SystemState :=
  match lookupBooking s bid with
  | none => (.notFound "Booking not found", s)
  | some b =>
    if b.passenger ≠ uid then
      (.forbidden "Not authorized to update this booking", s)
    else
      let b1 := { b with paymentStatus := paymentStatus }
      if paymentStatus = "paid" ∧ truthyStr transactionId then
        let b2 := { b1 with transactionId := transactionId, bookingStatus := "confirmed" }
        (.ok "Payment status updated successfully", saveBooking s bid b2)
      else if paymentStatus = "failed" then
        let b2 := { b1 with bookingStatus := "cancelled" }
        let s1 :=
          match lookupTrip s b.trip with
          | none => s
          | some t =>
            saveTrip s b.trip
              { t with
                bookedSeats := t.bookedSeats - (b.seatsBooked : ℤ)
                totalEarnings := t.totalEarnings - b.totalAmount
                passengers := t.passengers.filter (fun p => p.user ≠ uid) }
        (.ok "Payment status updated successfully", saveBooking s1 bid b2)
      else
        (.ok "Payment status updated successfully", saveBooking s bid b1)

/-- PATCH /:id/cancel (bookingRoutes.js:173-222): only the owning passenger,
only if not already cancelled; record reason, actor, timestamp and the
refund, then roll the trip counters back and drop the caller's roster
entries.  Booking.calculateRefund is not in the snapshot (the Booking model
file is missing); spec section 4.3 treats it as a pluggable pure policy
function of the booking, so it is a parameter calcRefund here. -/
def cancelBooking (calcRefund : Booking → ℚ) (uid bid : Nat)
    (reason : Option String) (now : Nat) (s : SystemState) : Resp × SystemState :=
  match lookupBooking s bid with
  | none => (.notFound "Booking not found", s)
  | some b =>
    if b.passenger ≠ uid then
      (.forbidden "Not authorized to cancel this booking", s)
    else if b.bookingStatus = "cancelled" then
      (.badRequest "Booking is already cancelled", s)
    else
      let b' := { b with
        bookingStatus := "cancelled"
        cancellationReason := reason
        cancelledBy := some uid
        cancelledAt := some now
        refundAmount := some (calcRefund b) }
      let s1 := saveBooking s bid b'
      let s2 :=
        match lookupTrip s1 b.trip with
        | none => s1
        | some t =>
          saveTrip s1 b.trip
            { t with
              bookedSeats := t.bookedSeats - (b.seatsBooked : ℤ)
              totalEarnings := t.totalEarnings - b.totalAmount
              passengers := t.passengers.filter (fun p => p.user ≠ uid) }
      (.ok "Booking cancelled successfully", s2)

/-- The OTP age in minutes at bookingRoutes.js:255: millisecond difference
of the clock and the generation time, divided by 60000. -/
def otpAgeMinutes (now generatedAt : Nat) : ℚ :=
  ((now : ℚ) - (generatedAt : ℚ)) / (1000 * 60)

/-- POST /:id/verify-otp (bookingRoutes.js:225-269) after the validator:
the owning passenger or the trip's driver submits a code; an exact match
against the stored code is required, then the OTP must be at most 30
minutes old; on success the OTP is marked verified and the booking
confirmed. -/
def verifyOtp (uid bid : Nat) (otp : String) (now : Nat)
    (s : SystemState) : Resp × SystemState :=
  match lookupBooking s bid with
  | none => (.notFound "Booking not found", s)
  | some b =>
    let driverOk :=
      match lookupTrip s b.trip with
      | none => false
      | some t => t.driver = uid
    if b.passenger ≠ uid ∧ driverOk = false then
      (.forbidden "Not authorized to verify this booking", s)
    else if b.otp.code ≠ otp then
      (.badRequest "Invalid OTP", s)
    else if otpAgeMinutes now b.otp.generatedAt > 30 then
      (.badRequest "OTP has expired", s)
    else
      let b' := { b with otp := { b.otp with verified := true },
                         bookingStatus := "confirmed" }
      (.ok "OTP verified successfully", saveBooking s bid b')

/-- The streaming-mean update at bookingRoutes.js:359-362 and 378-381. -/
def bumpRating (u : User) (rating : Nat) : User :=
  let newCount := u.rating.count + 1
  let newAverage := (u.rating.average * (u.rating.count : ℚ) + (rating : ℚ)) / (newCount : ℚ)
  { u with rating := { average := newAverage, count := newCount } }

/-- POST /:id/rate (bookingRoutes.js:323-395) after the validator (rating in
1..5): only completed bookings; the passenger rates the driver once, the
driver rates the passenger once, each direction rejected on a second
attempt; the rated user's running average and count are updated.  A missing
trip document makes the JS handler throw on trip.driver, hence the 500. -/
def rateBooking (uid bid : Nat) (rating : Nat) (review : Option String)
    (s : SystemState) : Resp × SystemState :=
  match lookupBooking s bid with
  | none => (.notFound "Booking not found", s)
  | some b =>
    if b.bookingStatus ≠ "completed" then
      (.badRequest "Can only rate completed bookings", s)
    else
      match lookupTrip s b.trip with
      | none => (.serverError, s)
      | some t =>
        if b.passenger = uid then
          if (b.rating.forDriver).isSome then
            (.badRequest "You have already rated this driver", s)
          else
            let b' := { b with rating :=
              { b.rating with forDriver := some { rating := rating, review := review } } }
            let s1 :=
              match lookupUser s t.driver with
              | none => s
              | some u => saveUser s t.driver (bumpRating u rating)
            (.ok "Rating submitted successfully", saveBooking s1 bid b')
        else if t.driver = uid then
          if (b.rating.forPassenger).isSome then
            (.badRequest "You have already rated this passenger", s)
          else
            let b' := { b with rating :=
              { b.rating with forPassenger := some { rating := rating, review := review } } }
            let s1 :=
              match lookupUser s b.passenger with
              | none => s
              | some u => saveUser s b.passenger (bumpRating u rating)
            (.ok "Rating submitted successfully", saveBooking s1 bid b')
        else
          (.forbidden "Not authorized to rate this booking", s)

/-- A booking counts toward its trip's counters while neither cancelled nor
failed (spec section 3's invariant). -/
def Booking.live (b : Booking) : Bool :=
  b.bookingStatus ≠ "cancelled" && b.paymentStatus ≠ "failed"

/-- Aggregate seat count of the live bookings of a trip. -/
def aggregateSeats (s : SystemState) (tid : Nat) : ℤ :=
  (s.bookings.filter (fun kb => kb.2.trip = tid && kb.2.live)).foldl
    (fun a kb => a + (kb.2.seatsBooked : ℤ)) 0

/-- Aggregate amount of the live bookings of a trip. -/
def aggregateEarnings (s : SystemState) (tid : Nat) : ℚ :=
  (s.bookings.filter (fun kb => kb.2.trip = tid && kb.2.live)).foldl
    (fun a kb => a + kb.2.totalAmount) 0

/-! Association-list lemmas used to read documents back after a save. -/

theorem lookupA_updateA_self {α : Type} (k : Nat) (v x : α) (l : List (Nat × α))
    (h : lookupA k l = some x) : lookupA k (updateA k v l) = some v := by
  induction l with
  | nil => simp [lookupA] at h
  | cons p l ih =>
    obtain ⟨k', v'⟩ := p
    by_cases hk : k' = k
    · simp [lookupA, updateA, hk]
    · simp only [lookupA, updateA, hk, if_false, if_neg hk] at h ⊢
      exact ih h

theorem lookupA_updateA_ne {α : Type} (k k' : Nat) (v : α) (l : List (Nat × α))
    (h : k' ≠ k) : lookupA k' (updateA k v l) = lookupA k' l := by
  induction l with
  | nil => rfl
  | cons p l ih =>
    obtain ⟨k0, v0⟩ := p
    by_cases hk : k0 = k
    · subst hk
      have h0 : ¬(k0 = k') := fun hh => h hh.symm
      simp only [updateA, if_pos rfl, lookupA, if_neg h0]
      exact ih
    · simp only [updateA, if_neg hk, lookupA]
      by_cases h0 : k0 = k'
      · simp [h0]
      · simp only [if_neg h0]
        exact ih

theorem lookupTrip_saveBooking (s : SystemState) (bid : Nat) (b : Booking) (tid : Nat) :
    lookupTrip (saveBooking s bid b) tid = lookupTrip s tid := rfl

theorem lookupBooking_saveTrip (s : SystemState) (tid : Nat) (t : Trip) (bid : Nat) :
    lookupBooking (saveTrip s tid t) bid = lookupBooking s bid := rfl

theorem lookupUser_saveBooking (s : SystemState) (bid : Nat) (b : Booking) (uid : Nat) :
    lookupUser (saveBooking s bid b) uid = lookupUser s uid := rfl

theorem lookupBooking_saveUser (s : SystemState) (uid : Nat) (u : User) (bid : Nat) :
    lookupBooking (saveUser s uid u) bid = lookupBooking s bid := rfl

/-- The booking record as written by the cancellation handler
(bookingRoutes.js:197-201). -/
def Booking.asCancelled (b : Booking) (reason : Option String) (uid now : Nat)
    (refund : ℚ) : Booking :=
  { b with
    bookingStatus := "cancelled"
    cancellationReason := reason
    cancelledBy := some uid
    cancelledAt := some now
    refundAmount := some refund }

/-- The trip record after the seat/earnings rollback and roster removal of
the caller (bookingRoutes.js:157-159 and 208-210). -/
def Trip.rolledBack (t : Trip) (b : Booking) (uid : Nat) : Trip :=
  { t with
    bookedSeats := t.bookedSeats - (b.seatsBooked : ℤ)
    totalEarnings := t.totalEarnings - b.totalAmount
    passengers := t.passengers.filter (fun p => p.user ≠ uid) }

/-- Shared shape of a successful cancellation: response, updated booking,
updated trip.  Used by the cancellation and the rejection-condition
theorems below. -/
theorem cancel_success (calcRefund : Booking → ℚ) (uid bid : Nat) (reason : Option String)
    (now : Nat) (s : SystemState) (b : Booking) (t : Trip)
    (hb : lookupBooking s bid = some b) (hown : b.passenger = uid)
    (hnc : b.bookingStatus ≠ "cancelled") (ht : lookupTrip s b.trip = some t) :
    (cancelBooking calcRefund uid bid reason now s).1 =
      Resp.ok "Booking cancelled successfully" ∧
    lookupBooking (cancelBooking calcRefund uid bid reason now s).2 bid =
      some (b.asCancelled reason uid now (calcRefund b)) ∧
    lookupTrip (cancelBooking calcRefund uid bid reason now s).2 b.trip =
      some (t.rolledBack b uid) := by
  have hv : cancelBooking calcRefund uid bid reason now s =
      (Resp.ok "Booking cancelled successfully",
        saveTrip (saveBooking s bid (b.asCancelled reason uid now (calcRefund b)))
          b.trip (t.rolledBack b uid)) := by
    simp only [cancelBooking, hb, hown, ne_eq, not_true_eq_false, if_false,
      if_neg hnc, lookupTrip_saveBooking, ht, Booking.asCancelled, Trip.rolledBack]
  rw [hv]
  refine ⟨rfl, ?_, ?_⟩
  · exact lookupA_updateA_self bid _ b s.bookings hb
  · exact lookupA_updateA_self b.trip _ t _ ht

/-- C3: a successful cancellation by the owning passenger of a
not-yet-cancelled booking marks the booking cancelled with reason, actor,
timestamp and refund recorded, decrements the trip's bookedSeats by
seatsBooked and totalEarnings by totalAmount, and removes the passenger
from the trip's roster. -/
theorem cancelBooking_effects (calcRefund : Booking → ℚ) (uid bid : Nat)
    (reason : Option String) (now : Nat) (s : SystemState) (b : Booking) (t : Trip)
    (hb : lookupBooking s bid = some b) (hown : b.passenger = uid)
    (hnc : b.bookingStatus ≠ "cancelled") (ht : lookupTrip s b.trip = some t) :
    (cancelBooking calcRefund uid bid reason now s).1 =
      Resp.ok "Booking cancelled successfully" ∧
    (∃ b', lookupBooking (cancelBooking calcRefund uid bid reason now s).2 bid = some b' ∧
      b'.bookingStatus = "cancelled" ∧ b'.cancellationReason = reason ∧
      b'.cancelledBy = some uid ∧ b'.cancelledAt = some now ∧
      b'.refundAmount = some (calcRefund b)) ∧
    (∃ t', lookupTrip (cancelBooking calcRefund uid bid reason now s).2 b.trip = some t' ∧
      t'.bookedSeats = t.bookedSeats - (b.seatsBooked : ℤ) ∧
      t'.totalEarnings = t.totalEarnings - b.totalAmount ∧
      t'.passengers = t.passengers.filter (fun p => p.user ≠ uid) ∧
      ∀ p ∈ t'.passengers, p.user ≠ uid) := by
  obtain ⟨h1, h2, h3⟩ := cancel_success calcRefund uid bid reason now s b t hb hown hnc ht
  refine ⟨h1, ⟨_, h2, rfl, rfl, rfl, rfl, rfl⟩, ⟨_, h3, rfl, rfl, rfl, ?_⟩⟩
  intro p hp
  have hm : p ∈ t.passengers ∧ ¬p.user = uid := by simpa [Trip.rolledBack] using hp
  exact hm.2

/-- C10: with the owning passenger calling, cancellation answers the
already-cancelled rejection exactly when the booking's status is cancelled
(leaving the state untouched); any other status, completed included, is
accepted and the trip's counters are rolled back. -/
theorem cancel_reject_iff_already_cancelled (calcRefund : Booking → ℚ) (uid bid : Nat)
    (reason : Option String) (now : Nat) (s : SystemState) (b : Booking)
    (hb : lookupBooking s bid = some b) (hown : b.passenger = uid) :
    ((cancelBooking calcRefund uid bid reason now s).1 =
        Resp.badRequest "Booking is already cancelled" ↔
      b.bookingStatus = "cancelled") ∧
    (b.bookingStatus = "cancelled" →
      (cancelBooking calcRefund uid bid reason now s).2 = s) ∧
    (b.bookingStatus = "completed" → ∀ t, lookupTrip s b.trip = some t →
      (cancelBooking calcRefund uid bid reason now s).1 =
        Resp.ok "Booking cancelled successfully" ∧
      ∃ t', lookupTrip (cancelBooking calcRefund uid bid reason now s).2 b.trip = some t' ∧
        t'.bookedSeats = t.bookedSeats - (b.seatsBooked : ℤ) ∧
        t'.totalEarnings = t.totalEarnings - b.totalAmount) := by
  by_cases hnc : b.bookingStatus = "cancelled"
  · have hv : cancelBooking calcRefund uid bid reason now s =
        (Resp.badRequest "Booking is already cancelled", s) := by
      simp only [cancelBooking, hb, hown, ne_eq, not_true_eq_false, if_false, if_pos hnc]
    refine ⟨by rw [hv]; exact iff_of_true rfl hnc, fun _ => by rw [hv], fun hcomp => ?_⟩
    rw [hcomp] at hnc
    exact absurd hnc (by decide)
  · have h1 : (cancelBooking calcRefund uid bid reason now s).1 =
        Resp.ok "Booking cancelled successfully" := by
      simp only [cancelBooking, hb, hown, ne_eq, not_true_eq_false, if_false, if_neg hnc]
    refine ⟨?_, fun h => absurd h hnc, fun hcomp t ht => ?_⟩
    · constructor
      · intro h
        rw [h1] at h
        exact Resp.noConfusion h
      · intro h
        exact absurd h hnc
    · obtain ⟨hr, _, h3⟩ := cancel_success calcRefund uid bid reason now s b t hb hown hnc ht
      exact ⟨hr, _, h3, rfl, rfl⟩

/-- C2: OTP verification by an authorized caller succeeds exactly when the
submitted string equals the stored code and the OTP's age in minutes is at
most 30; on success the stored booking has otp.verified true and
bookingStatus confirmed. -/
theorem verifyOtp_iff_code_and_age (s : SystemState) (uid bid now : Nat) (code : String)
    (b : Booking) (hb : lookupBooking s bid = some b)
    (hauth : b.passenger = uid ∨ ∃ t, lookupTrip s b.trip = some t ∧ t.driver = uid) :
    ((verifyOtp uid bid code now s).1 = Resp.ok "OTP verified successfully" ↔
      (code = b.otp.code ∧ otpAgeMinutes now b.otp.generatedAt ≤ 30)) ∧
    ((code = b.otp.code ∧ otpAgeMinutes now b.otp.generatedAt ≤ 30) →
      ∃ b', lookupBooking (verifyOtp uid bid code now s).2 bid = some b' ∧
        b'.otp.verified = true ∧ b'.bookingStatus = "confirmed") := by
  have hg : ¬(b.passenger ≠ uid ∧ (match lookupTrip s b.trip with
      | none => false
      | some t => decide (t.driver = uid)) = false) := by
    rcases hauth with hp | ⟨t, ht, hd⟩
    · intro h; exact h.1 hp
    · intro h; rw [ht] at h; simp [hd] at h
  by_cases hc : b.otp.code = code
  · by_cases ha : otpAgeMinutes now b.otp.generatedAt > 30
    · have hv : verifyOtp uid bid code now s = (Resp.badRequest "OTP has expired", s) := by
        simp [verifyOtp, hb, hg, hc, ha]
      constructor
      · rw [hv]
        constructor
        · intro h; exact Resp.noConfusion h
        · intro h; exact absurd h.2 (not_le.mpr ha)
      · intro h; exact absurd h.2 (not_le.mpr ha)
    · have hv : verifyOtp uid bid code now s = (Resp.ok "OTP verified successfully",
          saveBooking s bid { b with otp := { b.otp with verified := true },
                                     bookingStatus := "confirmed" }) := by
        simp [verifyOtp, hb, hg, hc, ha]
      constructor
      · rw [hv]
        constructor
        · intro _; exact ⟨hc.symm, not_lt.mp ha⟩
        · intro _; rfl
      · intro _
        rw [hv]
        refine ⟨{ b with otp := { b.otp with verified := true },
                         bookingStatus := "confirmed" }, ?_, rfl, rfl⟩
        exact lookupA_updateA_self bid _ b s.bookings hb
  · have hv : verifyOtp uid bid code now s = (Resp.badRequest "Invalid OTP", s) := by
      simp [verifyOtp, hb, hg, hc]
    constructor
    · rw [hv]
      constructor
      · intro h; exact Resp.noConfusion h
      · intro h; exact absurd h.1.symm hc
    · intro h; exact absurd h.1.symm hc

/-- C6: the owning passenger's payment update behaves as specified: paid
with a (truthy) transaction id confirms the booking and stores the id and
leaves the trips untouched; failed cancels the booking and, for the
booking's trip, decrements bookedSeats by seatsBooked and totalEarnings by
totalAmount and removes the passenger from the roster. -/
theorem updatePayment_paid_and_failed (uid bid : Nat) (s : SystemState) (b : Booking)
    (hb : lookupBooking s bid = some b) (hown : b.passenger = uid) :
    (∀ tx : String, tx ≠ "" →
      (updatePayment uid bid "paid" (some tx) s).1 =
        Resp.ok "Payment status updated successfully" ∧
      lookupBooking (updatePayment uid bid "paid" (some tx) s).2 bid = some
        { b with
          paymentStatus := "paid"
          transactionId := some tx
          bookingStatus := "confirmed" } ∧
      (updatePayment uid bid "paid" (some tx) s).2.trips = s.trips) ∧
    ((updatePayment uid bid "failed" none s).1 =
        Resp.ok "Payment status updated successfully" ∧
      lookupBooking (updatePayment uid bid "failed" none s).2 bid = some
        { b with
          paymentStatus := "failed"
          bookingStatus := "cancelled" } ∧
      (∀ t, lookupTrip s b.trip = some t →
        lookupTrip (updatePayment uid bid "failed" none s).2 b.trip =
          some (t.rolledBack b uid))) := by
  constructor
  · intro tx htx
    have hv : updatePayment uid bid "paid" (some tx) s =
        (Resp.ok "Payment status updated successfully",
          saveBooking s bid
            { b with
              paymentStatus := "paid"
              transactionId := some tx
              bookingStatus := "confirmed" }) := by
      simp [updatePayment, hb, hown, truthyStr, htx]
    rw [hv]
    exact ⟨rfl, lookupA_updateA_self bid _ b s.bookings hb, rfl⟩
  · cases htr : lookupTrip s b.trip with
    | none =>
      have hv : updatePayment uid bid "failed" none s =
          (Resp.ok "Payment status updated successfully",
            saveBooking s bid
              { b with
                paymentStatus := "failed"
                bookingStatus := "cancelled" }) := by
        simp [updatePayment, hb, hown, truthyStr, htr]
      rw [hv]
      refine ⟨rfl, lookupA_updateA_self bid _ b s.bookings hb, ?_⟩
      intro t ht
      exact Option.noConfusion ht
    | some t0 =>
      have hv : updatePayment uid bid "failed" none s =
          (Resp.ok "Payment status updated successfully",
            saveBooking (saveTrip s b.trip (t0.rolledBack b uid)) bid
              { b with
                paymentStatus := "failed"
                bookingStatus := "cancelled" }) := by
        simp [updatePayment, hb, hown, truthyStr, htr, Trip.rolledBack]
      rw [hv]
      refine ⟨rfl, lookupA_updateA_self bid _ b s.bookings hb, ?_⟩
      intro t ht
      obtain rfl := Option.some_injective _ ht
      rw [lookupTrip_saveBooking]
      exact lookupA_updateA_self b.trip _ t0 s.trips htr

/-- C9: a paid update without a transaction id only records
paymentStatus paid: the stored booking equals the old booking with only
that field changed (so bookingStatus stays as it was and no transaction id
is stored), and the trips and users collections are untouched. -/
theorem updatePayment_paid_without_tx (uid bid : Nat) (s : SystemState) (b : Booking)
    (hb : lookupBooking s bid = some b) (hown : b.passenger = uid) :
    (updatePayment uid bid "paid" none s).1 =
      Resp.ok "Payment status updated successfully" ∧
    lookupBooking (updatePayment uid bid "paid" none s).2 bid =
      some { b with paymentStatus := "paid" } ∧
    (updatePayment uid bid "paid" none s).2.trips = s.trips ∧
    (updatePayment uid bid "paid" none s).2.users = s.users := by
  have hv : updatePayment uid bid "paid" none s =
      (Resp.ok "Payment status updated successfully",
        saveBooking s bid { b with paymentStatus := "paid" }) := by
    simp [updatePayment, hb, hown, truthyStr]
  rw [hv]
  exact ⟨rfl, lookupA_updateA_self bid _ b s.bookings hb, rfl, rfl⟩

/-- C7: every successful rating submission updates the rated user's stored
average by the streaming-mean formula with the count incremented by one:
the passenger rating the driver updates the driver's record, and the
driver rating the passenger updates the passenger's record. -/
theorem rate_updates_streaming_mean (uid bid rating : Nat) (review : Option String)
    (s : SystemState) (b : Booking) (t : Trip) (u : User)
    (hb : lookupBooking s bid = some b) (hc : b.bookingStatus = "completed")
    (ht : lookupTrip s b.trip = some t) :
    (b.passenger = uid → b.rating.forDriver = none → lookupUser s t.driver = some u →
      (rateBooking uid bid rating review s).1 = Resp.ok "Rating submitted successfully" ∧
      ∃ u', lookupUser (rateBooking uid bid rating review s).2 t.driver = some u' ∧
        u'.rating.count = u.rating.count + 1 ∧
        u'.rating.average =
          (u.rating.average * (u.rating.count : ℚ) + (rating : ℚ)) /
            ((u.rating.count : ℚ) + 1)) ∧
    (b.passenger ≠ uid → t.driver = uid → b.rating.forPassenger = none →
      lookupUser s b.passenger = some u →
      (rateBooking uid bid rating review s).1 = Resp.ok "Rating submitted successfully" ∧
      ∃ u', lookupUser (rateBooking uid bid rating review s).2 b.passenger = some u' ∧
        u'.rating.count = u.rating.count + 1 ∧
        u'.rating.average =
          (u.rating.average * (u.rating.count : ℚ) + (rating : ℚ)) /
            ((u.rating.count : ℚ) + 1)) := by
  constructor
  · intro hpass hnr hu
    have hv : rateBooking uid bid rating review s =
        (Resp.ok "Rating submitted successfully",
          saveBooking (saveUser s t.driver (bumpRating u rating)) bid
            { b with rating :=
              { b.rating with forDriver := some { rating := rating, review := review } } }) := by
      simp [rateBooking, hb, hc, ht, hpass, hnr, hu]
    rw [hv]
    refine ⟨rfl, bumpRating u rating, ?_, rfl, ?_⟩
    · rw [lookupUser_saveBooking]
      exact lookupA_updateA_self t.driver _ u s.users hu
    · show (u.rating.average * (u.rating.count : ℚ) + (rating : ℚ)) /
          ((u.rating.count + 1 : ℕ) : ℚ) = _
      norm_cast
  · intro hnp hdrv hnr hu
    have hv : rateBooking uid bid rating review s =
        (Resp.ok "Rating submitted successfully",
          saveBooking (saveUser s b.passenger (bumpRating u rating)) bid
            { b with rating :=
              { b.rating with forPassenger := some { rating := rating, review := review } } }) := by
      simp [rateBooking, hb, hc, ht, hnp, hdrv, hnr, hu]
    rw [hv]
    refine ⟨rfl, bumpRating u rating, ?_, rfl, ?_⟩
    · rw [lookupUser_saveBooking]
      exact lookupA_updateA_self b.passenger _ u s.users hu
    · show (u.rating.average * (u.rating.count : ℚ) + (rating : ℚ)) /
          ((u.rating.count + 1 : ℕ) : ℚ) = _
      norm_cast

/-- C8: with a completed booking, a second rating attempt in either
direction (passenger already rated the driver, or driver already rated the
passenger) is rejected and leaves the whole state unchanged. -/
theorem rate_second_attempt_rejected (uid bid rating : Nat) (review : Option String)
    (s : SystemState) (b : Booking) (t : Trip)
    (hb : lookupBooking s bid = some b) (hc : b.bookingStatus = "completed")
    (ht : lookupTrip s b.trip = some t) :
    (b.passenger = uid → (b.rating.forDriver).isSome = true →
      (rateBooking uid bid rating review s).1 =
        Resp.badRequest "You have already rated this driver" ∧
      (rateBooking uid bid rating review s).2 = s) ∧
    (b.passenger ≠ uid → t.driver = uid → (b.rating.forPassenger).isSome = true →
      (rateBooking uid bid rating review s).1 =
        Resp.badRequest "You have already rated this passenger" ∧
      (rateBooking uid bid rating review s).2 = s) := by
  constructor
  · intro hpass hr
    have hv : rateBooking uid bid rating review s =
        (Resp.badRequest "You have already rated this driver", s) := by
      simp [rateBooking, hb, hc, ht, hpass, hr]
    rw [hv]
    exact ⟨rfl, rfl⟩
  · intro hnp hdrv hr
    have hv : rateBooking uid bid rating review s =
        (Resp.badRequest "You have already rated this passenger", s) := by
      simp [rateBooking, hb, hc, ht, hnp, hdrv, hr]
    rw [hv]
    exact ⟨rfl, rfl⟩

/-- C4: on a validated creation request the preconditions are checked in
the spec's order with the first failure fixing the error response: trip
exists, trip active, requester not the driver, enough remaining seats,
passenger details count equal to the seat count. -/
theorem createBooking_precondition_order (uid : Nat) (r : CreateReq)
    (now newId otpSeed : Nat) (s : SystemState) (_hvr : validCreateReq r = true) :
    (lookupTrip s r.tripId = none →
      (createBooking uid r now newId otpSeed s).1 = CreateResp.notFound "Trip not found") ∧
    (∀ trip, lookupTrip s r.tripId = some trip →
      (trip.status ≠ "active" →
        (createBooking uid r now newId otpSeed s).1 =
          CreateResp.badRequest "Trip is not available for booking") ∧
      (trip.status = "active" → trip.driver = uid →
        (createBooking uid r now newId otpSeed s).1 =
          CreateResp.badRequest "You cannot book your own trip") ∧
      (trip.status = "active" → trip.driver ≠ uid →
        trip.hasAvailableSeats r.seatsBooked = false →
        (createBooking uid r now newId otpSeed s).1 =
          CreateResp.badRequest "Not enough seats available") ∧
      (trip.status = "active" → trip.driver ≠ uid →
        trip.hasAvailableSeats r.seatsBooked = true →
        r.passengerDetails.length ≠ r.seatsBooked →
        (createBooking uid r now newId otpSeed s).1 =
          CreateResp.badRequest "Passenger details count must match seats booked")) := by
  refine ⟨fun h => by simp [createBooking, h], fun trip ht => ⟨?_, ?_, ?_, ?_⟩⟩
  · intro hact
    simp [createBooking, ht, hact]
  · intro hact hdrv
    simp [createBooking, ht, hact, hdrv]
  · intro hact hdrv hseats
    simp [createBooking, ht, hact, hdrv, hseats]
  · intro hact hdrv hseats hlen
    simp [createBooking, ht, hact, hdrv, hseats, hlen]

/-- C5: a creation request passing all preconditions persists a booking
whose totalAmount is pricePerSeat times seatsBooked, with a fresh 4-digit
unverified OTP, increments the trip's bookedSeats by seatsBooked and
totalEarnings by totalAmount, appends one passenger entry to the roster,
and returns 201 carrying the booking together with the plaintext OTP. -/
theorem createBooking_success_effects (uid : Nat) (r : CreateReq)
    (now newId otpSeed : Nat) (s : SystemState) (trip : Trip)
    (_hvr : validCreateReq r = true)
    (ht : lookupTrip s r.tripId = some trip) (hact : trip.status = "active")
    (hdrv : trip.driver ≠ uid) (hseats : trip.hasAvailableSeats r.seatsBooked = true)
    (hlen : r.passengerDetails.length = r.seatsBooked) :
    ∃ b code,
      (createBooking uid r now newId otpSeed s).1 = CreateResp.created newId b code ∧
      b.totalAmount = trip.pricePerSeat * (r.seatsBooked : ℚ) ∧
      b.otp.code = code ∧ code.length = 4 ∧
      b.otp.verified = false ∧ b.otp.generatedAt = now ∧
      b.paymentStatus = "pending" ∧ b.bookingStatus = "pending" ∧
      b.trip = r.tripId ∧ b.passenger = uid ∧ b.seatsBooked = r.seatsBooked ∧
      lookupBooking (createBooking uid r now newId otpSeed s).2 newId = some b ∧
      ∃ t', lookupTrip (createBooking uid r now newId otpSeed s).2 r.tripId = some t' ∧
        t'.bookedSeats = trip.bookedSeats + (r.seatsBooked : ℤ) ∧
        t'.totalEarnings = trip.totalEarnings + b.totalAmount ∧
        t'.passengers = trip.passengers ++
          [{ user := uid, seatsBooked := r.seatsBooked, bookingDate := now }] := by
  have hv : createBooking uid r now newId otpSeed s =
      (CreateResp.created newId
        (Booking.fresh uid r now (generateOTPCode otpSeed)
          (trip.pricePerSeat * (r.seatsBooked : ℚ)))
        (generateOTPCode otpSeed),
       { saveTrip s r.tripId
           (trip.afterBooking uid r now (trip.pricePerSeat * (r.seatsBooked : ℚ))) with
         bookings := (newId,
           Booking.fresh uid r now (generateOTPCode otpSeed)
             (trip.pricePerSeat * (r.seatsBooked : ℚ))) :: s.bookings }) := by
    simp [createBooking, ht, hact, hdrv, hseats, hlen]
  rw [hv]
  refine ⟨Booking.fresh uid r now (generateOTPCode otpSeed)
      (trip.pricePerSeat * (r.seatsBooked : ℚ)),
    generateOTPCode otpSeed, rfl, rfl, rfl, ?_, rfl, rfl, rfl, rfl, rfl, rfl, rfl, ?_,
    Trip.afterBooking trip uid r now (trip.pricePerSeat * (r.seatsBooked : ℚ)),
    ?_, rfl, rfl, rfl⟩
  · rfl
  · show lookupA newId ((newId, _) :: s.bookings) = _
    simp [lookupA]
  · exact lookupA_updateA_self r.tripId _ trip s.trips ht

/-! Concrete documents used to exercise the handlers. -/

def demoTrip : Trip :=
  { pricePerSeat := 10
    bookedSeats := 2
    totalSeats := 4
    driver := 99
    passengers := [{ user := 5, seatsBooked := 2, bookingDate := 0 }]
    totalEarnings := 20
    status := "active" }

def demoBooking : Booking :=
  { trip := 1
    passenger := 5
    seatsBooked := 2
    totalAmount := 20
    pickupPoint := { location := "A", time := "09:00" }
    dropPoint := { location := "B", time := "10:30" }
    paymentMethod := "cash"
    paymentStatus := "pending"
    bookingStatus := "pending"
    transactionId := none
    otp := { code := "4821", generatedAt := 0, verified := false }
    passengerDetails := ["p1", "p2"]
    rating := { forDriver := none, forPassenger := none }
    cancellationReason := none
    cancelledBy := none
    cancelledAt := none
    refundAmount := none
    specialRequests := none }

def demoState : SystemState :=
  { trips := [(1, demoTrip)], bookings := [(10, demoBooking)], users := [] }

def demoCancelledBooking : Booking := { demoBooking with bookingStatus := "cancelled" }

def demoCancelledState : SystemState :=
  { trips := [(1, demoTrip)], bookings := [(11, demoCancelledBooking)], users := [] }

def demoDriver : User := { rating := { average := 4, count := 2 } }

def demoCompletedBooking : Booking := { demoBooking with bookingStatus := "completed" }

def demoRateState : SystemState :=
  { trips := [(1, demoTrip)], bookings := [(12, demoCompletedBooking)],
    users := [(99, demoDriver)] }

def demoPassengerUser : User := { rating := { average := 3, count := 1 } }

def demoRateState2 : SystemState :=
  { trips := [(1, demoTrip)], bookings := [(12, demoCompletedBooking)],
    users := [(99, demoDriver), (5, demoPassengerUser)] }

def demoRatedBooking : Booking :=
  { demoCompletedBooking with rating :=
    { forDriver := some { rating := 4, review := none }, forPassenger := none } }

def demoRatedState : SystemState :=
  { trips := [(1, demoTrip)], bookings := [(13, demoRatedBooking)],
    users := [(99, demoDriver)] }

def demoReq : CreateReq :=
  { tripId := 1
    seatsBooked := 3
    pickupPoint := { location := "A", time := "09:00" }
    dropPoint := { location := "B", time := "10:30" }
    paymentMethod := "cash"
    passengerDetails := ["p1", "p2", "p3"]
    specialRequests := none }

def demoReq2 : CreateReq := { demoReq with seatsBooked := 2, passengerDetails := ["p1", "p2"] }

/-! The double-failed-payment trace behind the counter-divergence theorem:
one booking is created on an empty trip, then PATCH /:id/payment with
paymentStatus failed is called twice by the owner.  The handler never
checks the current booking status, so the second call rolls the trip
counters back a second time. -/

def c1Trip : Trip :=
  { pricePerSeat := 10
    bookedSeats := 0
    totalSeats := 4
    driver := 99
    passengers := []
    totalEarnings := 0
    status := "active" }

def c1Req : CreateReq :=
  { tripId := 1
    seatsBooked := 2
    pickupPoint := { location := "A", time := "09:00" }
    dropPoint := { location := "B", time := "10:30" }
    paymentMethod := "cash"
    passengerDetails := ["p1", "p2"]
    specialRequests := none }

def c1State0 : SystemState := { trips := [(1, c1Trip)], bookings := [], users := [] }

def c1Trace : SystemState :=
  let s1 := (createBooking 5 c1Req 0 100 4321 c1State0).2
  let s2 := (updatePayment 5 100 "failed" none s1).2
  (updatePayment 5 100 "failed" none s2).2

/-- C1: counterexample to the counter invariant.  After booking two seats
and then reporting a failed payment twice, the only booking is cancelled
and failed (so the live aggregates are zero), yet the trip's counters sit
at -2 seats and -20 earnings: the second reversal decremented both
counters again, so the aggregates and the counters disagree on a reachable
state. -/
theorem counters_diverge_after_double_failed_payment :
    (lookupTrip c1Trace 1).map Trip.bookedSeats = some (-2) ∧
    aggregateSeats c1Trace 1 = 0 ∧
    (lookupTrip c1Trace 1).map Trip.totalEarnings = some (-20) ∧
    aggregateEarnings c1Trace 1 = 0 ∧
    (lookupTrip c1Trace 1).map Trip.bookedSeats ≠ some (aggregateSeats c1Trace 1) ∧
    (lookupTrip c1Trace 1).map Trip.totalEarnings ≠ some (aggregateEarnings c1Trace 1) := by
  norm_num [c1Trace, c1State0, c1Trip, c1Req, createBooking, updatePayment,
    lookupTrip, lookupBooking, lookupA, updateA, saveTrip, saveBooking,
    Booking.fresh, Trip.afterBooking, Trip.hasAvailableSeats, generateOTPCode,
    truthyStr, aggregateSeats, aggregateEarnings, Booking.live]

/-! Closed witnesses applying each theorem at a concrete input. -/

/-- Witness for C2 at the spec's own example: OTP 4821 generated at time 0
is accepted at 29 minutes. -/
theorem verifyOtp_iff_code_and_age_witness :
    (verifyOtp 5 10 "4821" 1740000 demoState).1 = Resp.ok "OTP verified successfully" :=
  (verifyOtp_iff_code_and_age demoState 5 10 1740000 "4821" demoBooking rfl
    (Or.inl rfl)).1.mpr ⟨rfl, by norm_num [otpAgeMinutes, demoBooking]⟩

/-- Witness for C3: the demo booking cancels successfully. -/
theorem cancelBooking_effects_witness :
    (cancelBooking (fun _ => 15) 5 10 (some "sick") 500 demoState).1 =
      Resp.ok "Booking cancelled successfully" :=
  (cancelBooking_effects (fun _ => 15) 5 10 (some "sick") 500 demoState demoBooking
    demoTrip rfl rfl (by decide) rfl).1

/-- Witness for C10: cancelling an already cancelled booking is rejected. -/
theorem cancel_reject_iff_already_cancelled_witness :
    (cancelBooking (fun _ => 0) 5 11 none 0 demoCancelledState).1 =
      Resp.badRequest "Booking is already cancelled" :=
  (cancel_reject_iff_already_cancelled (fun _ => 0) 5 11 none 0 demoCancelledState
    demoCancelledBooking rfl rfl).1.mpr rfl

/-- Witness for C6: a paid update with transaction id TX1 succeeds. -/
theorem updatePayment_paid_and_failed_witness :
    (updatePayment 5 10 "paid" (some "TX1") demoState).1 =
      Resp.ok "Payment status updated successfully" :=
  ((updatePayment_paid_and_failed 5 10 demoState demoBooking rfl rfl).1 "TX1"
    (by decide)).1

/-- Witness for C9: a paid update without transaction id leaves trips as
they were. -/
theorem updatePayment_paid_without_tx_witness :
    (updatePayment 5 10 "paid" none demoState).2.trips = demoState.trips :=
  (updatePayment_paid_without_tx 5 10 demoState demoBooking rfl rfl).2.2.1

/-- Witness for C7, both directions: the passenger's rating of 5 takes the
driver from average 4 with count 2 to average 13/3 with count 3 (the
spec's example), and the driver's rating of 4 takes the passenger from
average 3 with count 1 to average 7/2 with count 2. -/
theorem rate_updates_streaming_mean_witness :
    (∃ u', lookupUser (rateBooking 5 12 5 none demoRateState).2 99 = some u' ∧
      u'.rating.count = 3 ∧ u'.rating.average = 13 / 3) ∧
    (∃ u', lookupUser (rateBooking 99 12 4 none demoRateState2).2 5 = some u' ∧
      u'.rating.count = 2 ∧ u'.rating.average = 7 / 2) := by
  constructor
  · obtain ⟨-, u', hu, hcnt, ha⟩ := (rate_updates_streaming_mean 5 12 5 none demoRateState
      demoCompletedBooking demoTrip demoDriver rfl rfl rfl).1 rfl rfl rfl
    exact ⟨u', hu, hcnt, by rw [ha]; norm_num [demoDriver]⟩
  · obtain ⟨-, u', hu, hcnt, ha⟩ := (rate_updates_streaming_mean 99 12 4 none demoRateState2
      demoCompletedBooking demoTrip demoPassengerUser rfl rfl rfl).2 (by decide) rfl rfl rfl
    exact ⟨u', hu, hcnt, by rw [ha]; norm_num [demoPassengerUser]⟩

/-- Witness for C8: rating a driver twice on one booking is rejected and
changes nothing. -/
theorem rate_second_attempt_rejected_witness :
    (rateBooking 5 13 5 none demoRatedState).1 =
      Resp.badRequest "You have already rated this driver" ∧
    (rateBooking 5 13 5 none demoRatedState).2 = demoRatedState :=
  (rate_second_attempt_rejected 5 13 5 none demoRatedState demoRatedBooking demoTrip
    rfl rfl rfl).1 rfl rfl

/-- Witness for C4: three requested seats against two remaining fail with
the seat-availability message. -/
theorem createBooking_precondition_order_witness :
    (createBooking 5 demoReq 0 20 4321 demoState).1 =
      CreateResp.badRequest "Not enough seats available" :=
  ((createBooking_precondition_order 5 demoReq 0 20 4321 demoState rfl).2 demoTrip
    rfl).2.2.1 rfl (by decide) (by decide)

/-- Witness for C5: booking two of the remaining seats at price 10 creates
a booking of amount 20 with a 4-digit OTP. -/
theorem createBooking_success_effects_witness :
    ∃ b code,
      (createBooking 5 demoReq2 0 20 4321 demoState).1 = CreateResp.created 20 b code ∧
      b.totalAmount = 20 ∧ code.length = 4 := by
  obtain ⟨b, code, h1, h2, -, h4, -, -, -, -, -, -, -, -, -⟩ :=
    createBooking_success_effects 5 demoReq2 0 20 4321 demoState demoTrip rfl rfl rfl
      (by decide) (by decide) rfl
  exact ⟨b, code, h1, by rw [h2]; norm_num [demoTrip, demoReq2], h4⟩

end TravelMate
